import Mathlib

/-!
Shallow embedding of the real-time audio streaming core of the
voice-ninja-server browser clients, and proofs about it.

Sources embedded:
- `src/static/websocket.js` — protobuf `WebSocketClient`: capture conversion
  `convertFloat32ToS16PCM`, playback scheduling `enqueueAudioFromProto`,
  message handling, `stopAudio` lifecycle.
- `src/static/js/elevenlabs_websocket.js` — `ElevenLabsWebSocketClient`:
  readiness handshake `handleJSONMessage`, capture/voice-activity handler
  installed by `startAudioStreaming`, `clearAudioQueue`, `sendAudioChunk`,
  inbound message dispatch.

Numbers: audio samples and clock times are modelled as `ℚ`.  For the inputs
relevant here every JavaScript float64 operation performed by the source
(clamping, multiplying a float32 sample by 32767 or 32768, truncating to an
int16 in range) is exact, so exact rational arithmetic reproduces the float
computation bit for bit.
-/

namespace VoiceNinja

/-- Truncation toward zero on rationals: the JavaScript `ToInt16` conversion
applied to an in-range value (store into an `Int16Array`). -/
def truncQ (q : ℚ) : ℤ := if 0 ≤ q then ⌊q⌋ else ⌈q⌉

/-- `Math.max(-1, Math.min(1, x))` — clamp a sample to `[-1, 1]`
(`src/static/websocket.js` line 344). -/
def clampUnit (x : ℚ) : ℚ := max (-1) (min 1 x)

/-- Per-sample body of `convertFloat32ToS16PCM`
(`src/static/websocket.js` lines 344-345):
clamp to `[-1,1]`, then `clampedValue < 0 ? clampedValue * 32768
: clampedValue * 32767`, stored into an `Int16Array` (truncation). -/
def s16OfFloat (x : ℚ) : ℤ :=
  let c := clampUnit x
  if c < 0 then truncQ (c * 32768) else truncQ (c * 32767)

/-- `convertFloat32ToS16PCM` (`src/static/websocket.js` lines 339-351),
mapped over the input sample list. -/
def convertFloat32ToS16PCM (xs : List ℚ) : List ℤ := xs.map s16OfFloat

/-- Per-sample capture conversion of the ElevenLabs client
(`src/static/js/elevenlabs_websocket.js` line 505):
`pcmData[i] = Math.max(-32768, Math.min(32767, inputData[i] * 32767))`,
stored into an `Int16Array` (truncation). -/
def elevenLabsS16OfFloat (x : ℚ) : ℤ :=
  truncQ (max (-32768) (min 32767 (x * 32767)))

/-- Modelled from the spec, section 4.1, for refinement comparison only
(the source definitions above are the authority): "for each sample, clamp
to [-1,1], then scale: negative values x32768, non-negative values x32767,
truncate to integer". -/
def specFloatToPCM16 (x : ℚ) : ℤ :=
  let c := max (-1) (min 1 x)
  if c < 0 then truncQ (c * 32768) else truncQ (c * 32767)

/-- Per-sample int16 → float decode used by playback
(`src/static/js/elevenlabs_websocket.js` line 439):
`channelData[i] = int16View[i] / 32768.0`. -/
def pcm16ToFloatSample (n : ℤ) : ℚ := (n : ℚ) / 32768

/-- The int16 → float decode mapped over a sample list. -/
def pcm16ToFloat (ns : List ℤ) : List ℚ := ns.map pcm16ToFloatSample

/-! ## Playback scheduler (`src/static/websocket.js`, `enqueueAudioFromProto`) -/

/-- `const scheduleDelay = 0.05` — 50 ms scheduling delay
(`src/static/websocket.js` line 280), in seconds. -/
def scheduleDelay : ℚ := 1 / 20

/-- `this.PLAY_TIME_RESET_THRESHOLD_MS = 0.5` (`src/static/websocket.js`
line 6), in milliseconds. -/
def PLAY_TIME_RESET_THRESHOLD_MS : ℚ := 1 / 2

/-- One successful enqueue of a decoded buffer
(`src/static/websocket.js` lines 266-286): clamp the cursor up to the
current device time if it is stale, compute the scheduled start as
`Math.max(this.playTime, currentTime + scheduleDelay)`, and advance the
cursor to `startTime + buffer.duration`.  Returns
`(startTime, new playTime)`. -/
def enqueueStep (playTime now dur : ℚ) : ℚ × ℚ :=
  let pt := if playTime < now then now else playTime
  let start := max pt (now + scheduleDelay)
  (start, start + dur)

/-- Run the scheduler over a list of `(deviceNow, duration)` chunks,
collecting the `(startTime, duration)` of each scheduled source. -/
def scheduleRun (playTime : ℚ) : List (ℚ × ℚ) → List (ℚ × ℚ)
  | [] => []
  | (now, d) :: rest =>
      ((enqueueStep playTime now d).1, d) ::
        scheduleRun (enqueueStep playTime now d).2 rest

/-! ## Protobuf client: inbound frames and playback state
(`src/static/websocket.js`) -/

/-- Outcome of `Frame.decode` / `decodeAudioData` on one inbound binary
message (lines 259-293): the protobuf decode throws, the decoded frame has
no `audio` field, the audio payload is rejected by `decodeAudioData`, or it
decodes to a playable buffer with the given duration. -/
inductive ProtoDecode where
  | decodeFail : ProtoDecode
  | missingAudio : ProtoDecode
  | badAudioData : List ℤ → ProtoDecode
  | audio : List ℤ → ℚ → ProtoDecode
  deriving DecidableEq

/-- Whether the inbound frame is one the claim scope calls a failed decode:
the schema decode throws or the `audio` field is absent. -/
def ProtoDecode.isDropped : ProtoDecode → Bool
  | .decodeFail => true
  | .missingAudio => true
  | _ => false

/-- Playback-side state of the protobuf client: the cursor `playTime` and
the trace of `(startTime, duration)` pairs handed to `source.start`. -/
structure ProtoPlayback where
  playTime : ℚ
  scheduled : List (ℚ × ℚ)
  deriving DecidableEq

/-- `enqueueAudioFromProto` (`src/static/websocket.js` lines 259-293) at
device time `now`.  A throwing `Frame.decode` is caught by the enclosing
try/catch before any state is touched; a frame without `audio` returns at
line 263 before any state is touched; a frame whose audio payload fails
`decodeAudioData` has already clamped the stale cursor (lines 266-269) but
schedules nothing; a playable frame is scheduled via `enqueueStep`. -/
def enqueueAudioFromProto (s : ProtoPlayback) (now : ℚ) :
    ProtoDecode → ProtoPlayback
  | .decodeFail => s
  | .missingAudio => s
  | .badAudioData _ =>
      { s with playTime := if s.playTime < now then now else s.playTime }
  | .audio _ dur =>
      { playTime := (enqueueStep s.playTime now dur).2,
        scheduled := s.scheduled ++ [((enqueueStep s.playTime now dur).1, dur)] }

/-- Process a list of `(deviceNow, decoded message)` events in order. -/
def protoPlayRun (s : ProtoPlayback) (evs : List (ℚ × ProtoDecode)) :
    ProtoPlayback :=
  evs.foldl (fun st p => enqueueAudioFromProto st p.1 p.2) s

/-! ## Protobuf client: capture handler (`src/static/websocket.js`,
`handleWebSocketOpen`, lines 315-332) -/

/-- `readyState` of a WebSocket handle held by the protobuf client while
the capture handler is installed.  The handler is attached only inside the
`onopen` callback and detached by `stopAudio`, so a CONNECTING handle is
never observed by it; after a local or remote close the handle is in
CLOSING or CLOSED, where the WHATWG `send` silently discards the payload
without transmitting or throwing. -/
inductive WsReadyState where
  | opened : WsReadyState
  | closing : WsReadyState
  | closed : WsReadyState
  deriving DecidableEq

/-- Capture-side state of the protobuf client: the socket handle
(`this.ws`, `Option.none` after it is nulled out) and the trace of frames
actually transmitted on the wire. -/
structure ProtoCapture where
  ws : Option WsReadyState
  wireFrames : List (List ℤ)
  deriving DecidableEq

/-- The `scriptProcessor.onaudioprocess` callback
(`src/static/websocket.js` lines 315-332): return immediately when
`this.ws` is null; otherwise convert the window with
`convertFloat32ToS16PCM`, frame it, and call `ws.send`, which puts bytes
on the wire only when the socket is OPEN. -/
def protoOnAudioProcess (s : ProtoCapture) (audioData : List ℚ) :
    ProtoCapture :=
  match s.ws with
  | Option.none => s
  | Option.some st =>
      if st = WsReadyState.opened then
        { s with wireFrames := s.wireFrames ++ [convertFloat32ToS16PCM audioData] }
      else s

/-! ## Protobuf client: lifecycle (`src/static/websocket.js`,
constructor, `stopAudio`, `handleWebSocketMessage`, `connect`,
`disconnect`) -/

/-- Whole-client state of the protobuf `WebSocketClient` as far as
playback is concerned. -/
structure ProtoClient where
  isPlaying : Bool
  wsConnected : Bool
  playback : ProtoPlayback
  deriving DecidableEq

/-- `stopAudio(closeWebsocket)` (`src/static/websocket.js` lines 353-382):
zeroes the cursor, clears `isPlaying`, and closes/nulls the socket when
asked to. -/
def stopAudio (closeWebsocket : Bool) (s : ProtoClient) : ProtoClient :=
  { s with isPlaying := false,
           playback := { s.playback with playTime := 0 },
           wsConnected := if closeWebsocket then false else s.wsConnected }

/-- Constructor state (`src/static/websocket.js` lines 2-37):
`isPlaying = true`, `playTime = 0`, no socket. -/
def protoClientInit : ProtoClient :=
  { isPlaying := true, wsConnected := false,
    playback := { playTime := 0, scheduled := [] } }

/-- Events driving the protobuf client. -/
inductive ProtoEvent where
  | connectEv : ProtoEvent
  | messageEv : ℚ → ProtoDecode → ProtoEvent
  | disconnectEv : ProtoEvent
  | stopAudioEv : Bool → ProtoEvent
  deriving DecidableEq

/-- One step of the protobuf client: `connect` opens a fresh socket
(lines 142-193, it never touches `isPlaying`); an inbound message runs
`handleWebSocketMessage` (lines 248-257), which enqueues only when
`this.isPlaying`; `disconnect` (lines 195-205) closes the socket and calls
`stopAudio(true)` when a socket exists; a direct `stopAudio` call is the
teardown from lines 353-382. -/
def protoStep (s : ProtoClient) : ProtoEvent → ProtoClient
  | .connectEv => { s with wsConnected := true }
  | .messageEv now m =>
      if s.isPlaying then
        { s with playback := enqueueAudioFromProto s.playback now m }
      else s
  | .disconnectEv =>
      if s.wsConnected then stopAudio true { s with wsConnected := false } else s
  | .stopAudioEv b => stopAudio b s

/-! ## ElevenLabs client: readiness handshake
(`src/static/js/elevenlabs_websocket.js`, `handleJSONMessage`) -/

/-- The readiness-relevant part of the ElevenLabs client state:
`conversationReady` and `audioInterfaceReady` (constructor lines 26-27),
and `isRecording`, which `startAudioStreaming` sets (line 519) when
microphone streaming begins. -/
structure HandshakeState where
  conversationReady : Bool
  audioInterfaceReady : Bool
  isRecording : Bool
  deriving DecidableEq

/-- Constructor state: both acknowledgement flags false, not recording. -/
def handshakeInit : HandshakeState :=
  { conversationReady := false, audioInterfaceReady := false, isRecording := false }

/-- Control messages dispatched by `handleJSONMessage`; every type other
than the two acknowledgements leaves the handshake state alone. -/
inductive ELControl where
  | conversationReadyMsg : ELControl
  | audioInterfaceReadyMsg : ELControl
  | otherMsg : ELControl
  deriving DecidableEq

/-- `handleJSONMessage` (`src/static/js/elevenlabs_websocket.js` lines
267-325) restricted to the handshake state: `conversation_ready` sets its
flag and nothing else; `audio_interface_ready` sets its flag and then
calls `startAudioStreaming()` only if `this.conversationReady` already
holds. -/
def handleJSONMessage (s : HandshakeState) : ELControl → HandshakeState
  | .conversationReadyMsg => { s with conversationReady := true }
  | .audioInterfaceReadyMsg =>
      let s1 := { s with audioInterfaceReady := true }
      if s1.conversationReady then { s1 with isRecording := true } else s1
  | .otherMsg => s

/-! ## ElevenLabs client: capture handler with voice-activity detection
(`src/static/js/elevenlabs_websocket.js`, `startAudioStreaming` lines
466-526, `clearAudioQueue` lines 369-385, `sendAudioChunk` lines 528-536) -/

/-- State of the ElevenLabs client touched by the
`audioProcessor.onaudioprocess` callback.  `wsOpen` abbreviates
`this.ws && this.ws.readyState === WebSocket.OPEN`; `sentFrames` is the
trace of PCM frames handed to `this.ws.send`; `flushes` counts the calls
to `clearAudioQueue` (trace instrumentation for the barge-in property). -/
structure CaptureState where
  wsOpen : Bool
  isMuted : Bool
  conversationReady : Bool
  audioInterfaceReady : Bool
  audioQueue : List (List ℤ)
  isPlayingAudio : Bool
  consecutiveActiveFrames : ℕ
  voiceActivityThreshold : ℚ
  requiredActiveFrames : ℕ
  sentFrames : List (List ℤ)
  flushes : ℕ
  deriving DecidableEq

/-- Squared RMS of a capture window.  Line 486 computes
`rms = Math.sqrt(inputData.reduce((sum, x) => sum + x*x, 0) / length)` and
line 488 compares `rms > threshold`; since the threshold is nonnegative,
that comparison is equivalent to `threshold^2 < rmsSq`, which avoids the
irrational square root. -/
def rmsSq (xs : List ℚ) : ℚ := (xs.map fun x => x * x).sum / xs.length

/-- `clearAudioQueue` (lines 369-385): empty the queue, stop the current
source, clear `isPlayingAudio`, and reset the voice-activity counter. -/
def clearAudioQueue (s : CaptureState) : CaptureState :=
  { s with audioQueue := [], isPlayingAudio := false,
           consecutiveActiveFrames := 0, flushes := s.flushes + 1 }

/-- `sendAudioChunk` (lines 528-536): transmit only when the socket is
open and the client is not muted. -/
def sendAudioChunk (s : CaptureState) (pcm : List ℤ) : CaptureState :=
  if s.wsOpen && !s.isMuted then { s with sentFrames := s.sentFrames ++ [pcm] }
  else s

/-- The voice-activity-detection block of the capture callback (lines
485-499): on a loud window increment the consecutive-frames counter and,
if the agent is speaking and the counter has reached
`requiredActiveFrames`, call `clearAudioQueue` and zero the counter again
(line 495); on a quiet window reset the counter. -/
def vadStep (s : CaptureState) (inputData : List ℚ) : CaptureState :=
  if s.voiceActivityThreshold * s.voiceActivityThreshold < rmsSq inputData then
    let s2 := { s with consecutiveActiveFrames := s.consecutiveActiveFrames + 1 }
    if s2.isPlayingAudio && s.requiredActiveFrames ≤ s2.consecutiveActiveFrames then
      { clearAudioQueue s2 with consecutiveActiveFrames := 0 }
    else s2
  else { s with consecutiveActiveFrames := 0 }

/-- The `onaudioprocess` capture callback (lines 478-513).  The whole body
runs only under `this.ws && OPEN && !this.isMuted && this.conversationReady
&& this.audioInterfaceReady`.  Inside: the voice-activity block
(`vadStep`), then PCM conversion and `sendAudioChunk`. -/
def processWindow (s : CaptureState) (inputData : List ℚ) : CaptureState :=
  if s.wsOpen && !s.isMuted && s.conversationReady && s.audioInterfaceReady then
    sendAudioChunk (vadStep s inputData) (inputData.map elevenLabsS16OfFloat)
  else s

/-! ## ElevenLabs client: inbound message dispatch
(`src/static/js/elevenlabs_websocket.js`, `handleWebSocketMessage` lines
252-265 and the `audio_chunk` branch of `handleJSONMessage` lines
289-299, `queueAudio` lines 333-346) -/

/-- One inbound text frame of the ElevenLabs socket, classified by how it
decodes: `JSON.parse` throws; an `audio_chunk` without `data_b64`; an
`audio_chunk` whose base64 payload makes `atob` throw; an `audio_chunk`
that decodes to PCM bytes; any other recognized or unknown control
message. -/
inductive ELInbound where
  | malformedJSON : ELInbound
  | audioChunkMissingB64 : ELInbound
  | audioChunkBadB64 : ELInbound
  | audioChunk : List ℤ → ELInbound
  | controlOther : ELInbound
  deriving DecidableEq

/-- Whether the inbound frame is in the claim scope of a dropped frame:
malformed JSON, missing `audio`/`data_b64` field, or invalid base64. -/
def ELInbound.isDropped : ELInbound → Bool
  | .malformedJSON => true
  | .audioChunkMissingB64 => true
  | .audioChunkBadB64 => true
  | _ => false

/-- Effect of one inbound text frame on the FIFO playback queue.  A
`JSON.parse` or `atob` exception is caught by the try/catch at lines
253-264 after no mutation; a missing `data_b64` only logs a warning
(line 297); a decoded chunk is pushed by `queueAudio` (line 335); other
control messages do not touch the queue. -/
def elHandleInbound (q : List (List ℤ)) : ELInbound → List (List ℤ)
  | .audioChunk bytes => q ++ [bytes]
  | _ => q

/-! ## Concrete example states used by witnesses and counterexamples -/

/-- An ElevenLabs client that is fully ready and currently playing agent
audio, with the constructor defaults `voiceActivityThreshold = 0.01` and
`requiredActiveFrames = 5` (lines 78-80). -/
def readyExample : CaptureState :=
  { wsOpen := true, isMuted := false, conversationReady := true,
    audioInterfaceReady := true, audioQueue := [[0]], isPlayingAudio := true,
    consecutiveActiveFrames := 0, voiceActivityThreshold := 1/100,
    requiredActiveFrames := 5, sentFrames := [], flushes := 0 }

/-- The same client with the mute toggle on. -/
def mutedExample : CaptureState := { readyExample with isMuted := true }

/-- The same client with the transport not open. -/
def notReadyExample : CaptureState := { readyExample with wsOpen := false }

/-- A protobuf client capture state whose socket has been nulled out. -/
def protoCaptureClosedExample : ProtoCapture :=
  { ws := Option.none, wireFrames := [] }

/-! ## Helper lemmas -/

/-- Evaluation rule for `truncQ` on a nonnegative argument. -/
lemma truncQ_eq_of_nonneg (q : ℚ) (z : ℤ) (h0 : 0 ≤ q) (h1 : (z : ℚ) ≤ q)
    (h2 : q < z + 1) : truncQ q = z := by
  unfold truncQ
  rw [if_pos h0]
  exact Int.floor_eq_iff.mpr ⟨h1, by exact_mod_cast h2⟩

/-- Evaluation rule for `truncQ` on a negative argument. -/
lemma truncQ_eq_of_neg (q : ℚ) (z : ℤ) (h0 : q < 0) (h1 : (z : ℚ) - 1 < q)
    (h2 : q ≤ z) : truncQ q = z := by
  unfold truncQ
  rw [if_neg (not_le.mpr h0)]
  exact Int.ceil_eq_iff.mpr ⟨by exact_mod_cast h1, by exact_mod_cast h2⟩

/-- `clampUnit` is the identity on `[-1, 1]`. -/
lemma clampUnit_eq_self (x : ℚ) (h1 : -1 ≤ x) (h2 : x ≤ 1) : clampUnit x = x := by
  unfold clampUnit
  rw [min_eq_right h2, max_eq_right h1]

/-- Concrete evaluation: the protobuf-client conversion at `-1.0`. -/
lemma s16OfFloat_neg_one : s16OfFloat (-1) = -32768 := by
  unfold s16OfFloat
  rw [clampUnit_eq_self _ (by norm_num) (by norm_num), if_pos (by norm_num : (-1:ℚ) < 0)]
  exact truncQ_eq_of_neg _ _ (by norm_num) (by push_cast; norm_num) (by push_cast; norm_num)

/-- Concrete evaluation: the protobuf-client conversion at `1.0`. -/
lemma s16OfFloat_one : s16OfFloat 1 = 32767 := by
  unfold s16OfFloat
  rw [clampUnit_eq_self _ (by norm_num) (by norm_num), if_neg (by norm_num : ¬((1:ℚ) < 0))]
  exact truncQ_eq_of_nonneg _ _ (by norm_num) (by push_cast; norm_num) (by push_cast; norm_num)

/-- Concrete evaluation: the protobuf-client conversion at `0.0`. -/
lemma s16OfFloat_zero : s16OfFloat 0 = 0 := by
  unfold s16OfFloat
  rw [clampUnit_eq_self _ (by norm_num) (by norm_num), if_neg (by norm_num : ¬((0:ℚ) < 0))]
  exact truncQ_eq_of_nonneg _ _ (by norm_num) (by push_cast; norm_num) (by push_cast; norm_num)

/-- Concrete evaluation: the ElevenLabs conversion at `-1.0`. -/
lemma elevenLabsS16OfFloat_neg_one : elevenLabsS16OfFloat (-1) = -32767 := by
  unfold elevenLabsS16OfFloat
  rw [show ((-1 : ℚ) * 32767) = -32767 by norm_num,
      min_eq_right (by norm_num : (-32767:ℚ) ≤ 32767),
      max_eq_right (by norm_num : (-32768:ℚ) ≤ -32767)]
  exact truncQ_eq_of_neg _ _ (by norm_num) (by push_cast; norm_num) (by push_cast; norm_num)

/-- Concrete evaluation: the protobuf-client conversion at `65533/65536`
(an exactly representable float32 sample). -/
lemma s16OfFloat_ce : s16OfFloat (65533/65536) = 32765 := by
  unfold s16OfFloat
  rw [clampUnit_eq_self _ (by norm_num) (by norm_num),
    if_neg (by norm_num : ¬((65533:ℚ)/65536 < 0))]
  exact truncQ_eq_of_nonneg _ _ (by norm_num) (by push_cast; norm_num) (by push_cast; norm_num)

/-- Dividing an integer error bound by the int16 scale. -/
lemma abs_div_scale_lt (t : ℤ) (x : ℚ) (h : |(t : ℚ) - 32768 * x| < 2) :
    |(t : ℚ) / 32768 - x| < 2 / 32768 := by
  have h32 : (0:ℚ) < 32768 := by norm_num
  have e : (t : ℚ) / 32768 - x = ((t : ℚ) - 32768 * x) / 32768 := by ring
  rw [e, abs_div, abs_of_pos h32]
  exact (div_lt_div_iff_of_pos_right h32).mpr h

/-! ## Claim theorems -/

/-- C1: the readiness handshake is claimed to reach the streaming state for
both arrival orders of the two acknowledgements.  On the code, the order
conversation-ready then audio-interface-ready starts streaming, but the
reverse order never does: the `conversation_ready` branch sets its flag
without checking `audioInterfaceReady`, so `startAudioStreaming` is never
invoked even though both flags end up true. -/
theorem C1_handshake_order_dependent :
    ([ELControl.conversationReadyMsg, ELControl.audioInterfaceReadyMsg].foldl
        handleJSONMessage handshakeInit).isRecording = true ∧
    (([ELControl.audioInterfaceReadyMsg, ELControl.conversationReadyMsg].foldl
        handleJSONMessage handshakeInit).isRecording = false ∧
      ([ELControl.audioInterfaceReadyMsg, ELControl.conversationReadyMsg].foldl
        handleJSONMessage handshakeInit).conversationReady = true ∧
      ([ELControl.audioInterfaceReadyMsg, ELControl.conversationReadyMsg].foldl
        handleJSONMessage handshakeInit).audioInterfaceReady = true) := by
  refine ⟨rfl, rfl, rfl, rfl⟩

/-- C2 counterexample: the two capture-side conversions are not the same
function — at sample `-1.0` the protobuf client produces `-32768` while the
ElevenLabs client produces `-32767` (it scales every sample by 32767). -/
theorem C2_capture_variants_differ :
    elevenLabsS16OfFloat (-1) = -32767 ∧ s16OfFloat (-1) = -32768 ∧
    elevenLabsS16OfFloat (-1) ≠ s16OfFloat (-1) := by
  refine ⟨elevenLabsS16OfFloat_neg_one, s16OfFloat_neg_one, ?_⟩
  rw [elevenLabsS16OfFloat_neg_one, s16OfFloat_neg_one]
  decide

/-- C2 (amended): the protobuf-client conversion `convertFloat32ToS16PCM`
computes exactly the specified function (clamp to `[-1,1]`, scale negatives
by 32768 and non-negatives by 32767, truncate), with `-1.0 ↦ -32768`,
`1.0 ↦ 32767`, `0.0 ↦ 0`; the ElevenLabs capture conversion is a different
function, scaling every sample by 32767 and clamping to the int16 range,
so it maps `-1.0` to `-32767`. -/
theorem C2_pcm16_conversion :
    (∀ x : ℚ, s16OfFloat x = specFloatToPCM16 x) ∧
    convertFloat32ToS16PCM [-1] = [-32768] ∧
    convertFloat32ToS16PCM [1] = [32767] ∧
    convertFloat32ToS16PCM [0] = [0] ∧
    (∀ x : ℚ, elevenLabsS16OfFloat x = truncQ (max (-32768) (min 32767 (x * 32767)))) ∧
    elevenLabsS16OfFloat (-1) = -32767 := by
  refine ⟨fun x => rfl, ?_, ?_, ?_, fun x => rfl, elevenLabsS16OfFloat_neg_one⟩
  · show [s16OfFloat (-1)] = [-32768]
    rw [s16OfFloat_neg_one]
  · show [s16OfFloat 1] = [32767]
    rw [s16OfFloat_one]
  · show [s16OfFloat 0] = [0]
    rw [s16OfFloat_zero]

/-- C3 counterexample: at the float32-representable sample `65533/65536`
the decode of the encode differs from the sample by `3/65536`, which
exceeds one quantization step `1/32768 = 2/65536`. -/
theorem C3_roundtrip_exceeds_one_step :
    (-1 : ℚ) ≤ 65533/65536 ∧ (65533 : ℚ)/65536 ≤ 1 ∧
    1/32768 < |pcm16ToFloatSample (s16OfFloat (65533/65536)) - 65533/65536| := by
  refine ⟨by norm_num, by norm_num, ?_⟩
  rw [s16OfFloat_ce]
  unfold pcm16ToFloatSample
  rw [show ((32765:ℤ) : ℚ) / 32768 - 65533/65536 = -(3/65536) by push_cast; norm_num,
    abs_neg, abs_of_nonneg (by norm_num : (0:ℚ) ≤ 3/65536)]
  norm_num

/-- C3 (amended): for every sample `x` in `[-1,1]`, decoding the encoded
sample is within two quantization steps of `x` (strictly less than
`2/32768`; for negative `x` the error is below one step, but for positive
`x` it can exceed one step because the encoder scales by 32767 while the
decoder divides by 32768). -/
theorem C3_roundtrip_two_steps (x : ℚ) (h1 : -1 ≤ x) (h2 : x ≤ 1) :
    |pcm16ToFloatSample (s16OfFloat x) - x| < 2 / 32768 ∧
    pcm16ToFloat (convertFloat32ToS16PCM [x]) = [pcm16ToFloatSample (s16OfFloat x)] := by
  refine ⟨?_, rfl⟩
  unfold s16OfFloat
  rw [clampUnit_eq_self x h1 h2]
  by_cases hx : x < 0
  · rw [if_pos hx]
    have hq : x * 32768 < 0 := mul_neg_of_neg_of_pos hx (by norm_num)
    unfold truncQ
    rw [if_neg (not_le.mpr hq)]
    unfold pcm16ToFloatSample
    apply abs_div_scale_lt
    have hle : x * 32768 ≤ ((⌈x * 32768⌉ : ℤ) : ℚ) := Int.le_ceil _
    have hlt : ((⌈x * 32768⌉ : ℤ) : ℚ) < x * 32768 + 1 := Int.ceil_lt_add_one _
    rw [abs_lt]
    constructor <;> linarith
  · rw [if_neg hx]
    have h0 : 0 ≤ x := not_lt.mp hx
    have hq : 0 ≤ x * 32767 := mul_nonneg h0 (by norm_num)
    unfold truncQ
    rw [if_pos hq]
    unfold pcm16ToFloatSample
    apply abs_div_scale_lt
    have hle : ((⌊x * 32767⌋ : ℤ) : ℚ) ≤ x * 32767 := Int.floor_le _
    have hlt : x * 32767 - 1 < ((⌊x * 32767⌋ : ℤ) : ℚ) := Int.sub_one_lt_floor _
    rw [abs_lt]
    constructor <;> linarith

/-- Witness for C3 (amended) at the concrete sample `1/2`. -/
theorem C3_roundtrip_two_steps_witness :
    (-1 : ℚ) ≤ 1/2 ∧ (1 : ℚ)/2 ≤ 1 ∧
    (|pcm16ToFloatSample (s16OfFloat (1/2)) - 1/2| < 2 / 32768 ∧
     pcm16ToFloat (convertFloat32ToS16PCM [1/2]) = [pcm16ToFloatSample (s16OfFloat (1/2))]) :=
  ⟨by norm_num, by norm_num, C3_roundtrip_two_steps (1/2) (by norm_num) (by norm_num)⟩

/-- The scheduling delay is nonnegative. -/
lemma scheduleDelay_nonneg : (0:ℚ) ≤ scheduleDelay := by norm_num [scheduleDelay]

/-- The stale-cursor clamp followed by the max against `now + delay`
collapses to a single max: the scheduled start is
`max nextStartTime (deviceNow + schedulingDelay)`. -/
lemma enqueueStep_fst (pt now d : ℚ) :
    (enqueueStep pt now d).1 = max pt (now + scheduleDelay) := by
  unfold enqueueStep
  dsimp only
  by_cases h : pt < now
  · rw [if_pos h, max_eq_right (le_add_of_nonneg_right scheduleDelay_nonneg),
      max_eq_right (by linarith [scheduleDelay_nonneg] : pt ≤ now + scheduleDelay)]
  · rw [if_neg h]

/-- The cursor advances to the scheduled start plus the buffer duration. -/
lemma enqueueStep_snd (pt now d : ℚ) :
    (enqueueStep pt now d).2 = (enqueueStep pt now d).1 + d := rfl

/-- A scheduled start never precedes the incoming cursor value. -/
lemma enqueueStep_fst_ge_pt (pt now d : ℚ) : pt ≤ (enqueueStep pt now d).1 := by
  rw [enqueueStep_fst]; exact le_max_left _ _

/-- A scheduled start never precedes `deviceNow + schedulingDelay`. -/
lemma enqueueStep_fst_ge_now (pt now d : ℚ) :
    now + scheduleDelay ≤ (enqueueStep pt now d).1 := by
  rw [enqueueStep_fst]; exact le_max_right _ _

/-- The first scheduled start of a run is at or after the incoming cursor. -/
lemma scheduleRun_head_ge (pt : ℚ) (chunks : List (ℚ × ℚ)) :
    ∀ p ∈ (scheduleRun pt chunks).head?, pt ≤ p.1 := by
  intro p hp
  cases chunks with
  | nil => simp [scheduleRun] at hp
  | cons c rest =>
      obtain ⟨now, d⟩ := c
      simp only [scheduleRun, List.head?_cons, Option.mem_def, Option.some.injEq] at hp
      rw [← hp]
      exact enqueueStep_fst_ge_pt pt now d

/-- Successive scheduled starts are separated by at least the previous
chunk duration. -/
lemma scheduleRun_chain (pt : ℚ) (chunks : List (ℚ × ℚ)) :
    List.Chain' (fun a b : ℚ × ℚ => a.1 + a.2 ≤ b.1) (scheduleRun pt chunks) := by
  induction chunks generalizing pt with
  | nil => simp [scheduleRun]
  | cons c rest ih =>
      obtain ⟨now, d⟩ := c
      rw [scheduleRun, List.chain'_cons']
      refine ⟨?_, ih _⟩
      intro y hy
      have := scheduleRun_head_ge (enqueueStep pt now d).2 rest y hy
      have hsnd := enqueueStep_snd pt now d
      dsimp only
      linarith

/-- C4: the Playback Scheduler computes each start time as
`max(nextStartTime, deviceNow + schedulingDelay)` (with the 50 ms
`scheduleDelay`) and advances the cursor to `startTime + duration`, so over
any run of enqueues the scheduled starts satisfy
`start(n+1) >= start(n) + d(n)`, and the first chunk starts no earlier than
`deviceNow + schedulingDelay`. -/
theorem C4_gapless_schedule (pt : ℚ) (chunks : List (ℚ × ℚ)) :
    (∀ now d : ℚ, (enqueueStep pt now d).1 = max pt (now + scheduleDelay) ∧
        (enqueueStep pt now d).2 = (enqueueStep pt now d).1 + d) ∧
    List.Chain' (fun a b : ℚ × ℚ => a.1 + a.2 ≤ b.1) (scheduleRun pt chunks) ∧
    (∀ now d rest p, chunks = (now, d) :: rest →
        (scheduleRun pt chunks).head? = some p → now + scheduleDelay ≤ p.1) := by
  refine ⟨fun now d => ⟨enqueueStep_fst pt now d, enqueueStep_snd pt now d⟩,
    scheduleRun_chain pt chunks, ?_⟩
  intro now d rest p hchunks hp
  subst hchunks
  simp only [scheduleRun, List.head?_cons, Option.some.injEq] at hp
  rw [← hp]
  exact enqueueStep_fst_ge_now pt now d

/-- Witness for C4 on the concrete run `pt = 0`,
`chunks = [(0,1), (2,3)]`. -/
theorem C4_gapless_schedule_witness :
    ((enqueueStep 0 5 7).1 = max 0 (5 + scheduleDelay) ∧
      (enqueueStep 0 5 7).2 = (enqueueStep 0 5 7).1 + 7) ∧
    List.Chain' (fun a b : ℚ × ℚ => a.1 + a.2 ≤ b.1)
      (scheduleRun 0 [(0, 1), (2, 3)]) ∧
    (0:ℚ) + scheduleDelay ≤ ((enqueueStep 0 0 1).1, (1:ℚ)).1 :=
  ⟨(C4_gapless_schedule 0 [(0, 1), (2, 3)]).1 5 7,
   (C4_gapless_schedule 0 [(0, 1), (2, 3)]).2.1,
   (C4_gapless_schedule 0 [(0, 1), (2, 3)]).2.2 0 1 [(2, 3)] _ rfl rfl⟩

/-- C5: when the gap between the device clock and the playback cursor
exceeds the configured reset threshold (0.5 ms, in seconds) at enqueue
time, the enqueue resets the cursor and schedules at
`deviceNow + schedulingDelay` instead of the stale cursor value, advancing
the cursor from the fresh start time. -/
theorem C5_silence_gap_reset (pt now d : ℚ)
    (h : PLAY_TIME_RESET_THRESHOLD_MS / 1000 < now - pt) :
    (enqueueStep pt now d).1 = now + scheduleDelay ∧
    (enqueueStep pt now d).2 = now + scheduleDelay + d := by
  have hth : (0:ℚ) < PLAY_TIME_RESET_THRESHOLD_MS / 1000 := by
    norm_num [PLAY_TIME_RESET_THRESHOLD_MS]
  have h1 : (enqueueStep pt now d).1 = now + scheduleDelay := by
    rw [enqueueStep_fst]
    exact max_eq_right (by linarith [scheduleDelay_nonneg])
  exact ⟨h1, by rw [enqueueStep_snd, h1]⟩

/-- Witness for C5 at `pt = 0`, `now = 1`, `d = 2`. -/
theorem C5_silence_gap_reset_witness :
    PLAY_TIME_RESET_THRESHOLD_MS / 1000 < (1:ℚ) - 0 ∧
    ((enqueueStep 0 1 2).1 = 1 + scheduleDelay ∧
      (enqueueStep 0 1 2).2 = 1 + scheduleDelay + 2) :=
  ⟨by norm_num [PLAY_TIME_RESET_THRESHOLD_MS],
   C5_silence_gap_reset 0 1 2 (by norm_num [PLAY_TIME_RESET_THRESHOLD_MS])⟩

/-- A dropped protobuf frame leaves the playback state untouched. -/
lemma enqueueAudioFromProto_dropped (s : ProtoPlayback) (now : ℚ)
    (m : ProtoDecode) (h : m.isDropped = true) :
    enqueueAudioFromProto s now m = s := by
  cases m with
  | decodeFail => rfl
  | missingAudio => rfl
  | badAudioData b => simp [ProtoDecode.isDropped] at h
  | audio b d => simp [ProtoDecode.isDropped] at h

/-- A dropped ElevenLabs inbound frame leaves the playback queue
untouched. -/
lemma elHandleInbound_dropped (q : List (List ℤ)) (m : ELInbound)
    (h : m.isDropped = true) : elHandleInbound q m = q := by
  cases m with
  | audioChunk b => simp [ELInbound.isDropped] at h
  | _ => rfl

/-- No step of the protobuf client turns `isPlaying` back on. -/
lemma protoStep_preserves_notPlaying (s : ProtoClient) (e : ProtoEvent)
    (h : s.isPlaying = false) : (protoStep s e).isPlaying = false := by
  cases e with
  | connectEv => exact h
  | messageEv now m => simp [protoStep, h]
  | disconnectEv =>
      simp only [protoStep]
      split
      · rfl
      · exact h
  | stopAudioEv b => rfl

/-- No run of the protobuf client turns `isPlaying` back on. -/
lemma protoRun_preserves_notPlaying (s : ProtoClient) (evs : List ProtoEvent)
    (h : s.isPlaying = false) : (evs.foldl protoStep s).isPlaying = false := by
  induction evs generalizing s with
  | nil => exact h
  | cons e rest ih =>
      exact ih (protoStep s e) (protoStep_preserves_notPlaying s e h)

/-- `sendAudioChunk` only appends to the transmit trace. -/
lemma sendAudioChunk_flushes (s : CaptureState) (pcm : List ℤ) :
    (sendAudioChunk s pcm).flushes = s.flushes := by
  unfold sendAudioChunk; split <;> rfl

/-- `sendAudioChunk` leaves the playback queue alone. -/
lemma sendAudioChunk_audioQueue (s : CaptureState) (pcm : List ℤ) :
    (sendAudioChunk s pcm).audioQueue = s.audioQueue := by
  unfold sendAudioChunk; split <;> rfl

/-- `sendAudioChunk` leaves the playback-active flag alone. -/
lemma sendAudioChunk_isPlayingAudio (s : CaptureState) (pcm : List ℤ) :
    (sendAudioChunk s pcm).isPlayingAudio = s.isPlayingAudio := by
  unfold sendAudioChunk; split <;> rfl

/-- `sendAudioChunk` leaves the voice-activity counter alone. -/
lemma sendAudioChunk_consecutiveActiveFrames (s : CaptureState) (pcm : List ℤ) :
    (sendAudioChunk s pcm).consecutiveActiveFrames = s.consecutiveActiveFrames := by
  unfold sendAudioChunk; split <;> rfl

/-- `sendAudioChunk` leaves the socket flag alone. -/
lemma sendAudioChunk_wsOpen (s : CaptureState) (pcm : List ℤ) :
    (sendAudioChunk s pcm).wsOpen = s.wsOpen := by
  unfold sendAudioChunk; split <;> rfl

/-- `sendAudioChunk` leaves the mute flag alone. -/
lemma sendAudioChunk_isMuted (s : CaptureState) (pcm : List ℤ) :
    (sendAudioChunk s pcm).isMuted = s.isMuted := by
  unfold sendAudioChunk; split <;> rfl

/-- `sendAudioChunk` leaves the conversation-ready flag alone. -/
lemma sendAudioChunk_conversationReady (s : CaptureState) (pcm : List ℤ) :
    (sendAudioChunk s pcm).conversationReady = s.conversationReady := by
  unfold sendAudioChunk; split <;> rfl

/-- `sendAudioChunk` leaves the audio-interface-ready flag alone. -/
lemma sendAudioChunk_audioInterfaceReady (s : CaptureState) (pcm : List ℤ) :
    (sendAudioChunk s pcm).audioInterfaceReady = s.audioInterfaceReady := by
  unfold sendAudioChunk; split <;> rfl

/-- `sendAudioChunk` leaves the activity threshold alone. -/
lemma sendAudioChunk_voiceActivityThreshold (s : CaptureState) (pcm : List ℤ) :
    (sendAudioChunk s pcm).voiceActivityThreshold = s.voiceActivityThreshold := by
  unfold sendAudioChunk; split <;> rfl

/-- `sendAudioChunk` leaves the required-frames configuration alone. -/
lemma sendAudioChunk_requiredActiveFrames (s : CaptureState) (pcm : List ℤ) :
    (sendAudioChunk s pcm).requiredActiveFrames = s.requiredActiveFrames := by
  unfold sendAudioChunk; split <;> rfl

/-- When the readiness guard holds, the capture callback is the VAD block
followed by the transmit attempt. -/
lemma processWindow_ready_step (s : CaptureState) (w : List ℚ)
    (hr : (s.wsOpen && !s.isMuted && s.conversationReady && s.audioInterfaceReady) = true) :
    processWindow s w = sendAudioChunk (vadStep s w) (w.map elevenLabsS16OfFloat) := by
  unfold processWindow
  rw [if_pos hr]

/-- A loud window that does not complete the required run of frames only
increments the counter. -/
lemma vadStep_high_noflush (s : CaptureState) (w : List ℚ)
    (hhigh : s.voiceActivityThreshold * s.voiceActivityThreshold < rmsSq w)
    (hnf : ¬(s.isPlayingAudio = true ∧
        s.requiredActiveFrames ≤ s.consecutiveActiveFrames + 1)) :
    vadStep s w = { s with consecutiveActiveFrames := s.consecutiveActiveFrames + 1 } := by
  unfold vadStep
  rw [if_pos hhigh, if_neg]
  intro hcond
  apply hnf
  simpa using hcond

/-- A loud window that completes the required run while the agent is
speaking flushes: queue emptied, playback flag cleared, counter zeroed,
flush count incremented. -/
lemma vadStep_high_flush (s : CaptureState) (w : List ℚ)
    (hhigh : s.voiceActivityThreshold * s.voiceActivityThreshold < rmsSq w)
    (hplay : s.isPlayingAudio = true)
    (hreach : s.requiredActiveFrames ≤ s.consecutiveActiveFrames + 1) :
    vadStep s w = { s with audioQueue := [],
                           isPlayingAudio := false,
                           consecutiveActiveFrames := 0,
                           flushes := s.flushes + 1 } := by
  unfold vadStep clearAudioQueue
  rw [if_pos hhigh, if_pos (by simp [hplay, hreach])]

/-- A quiet window only resets the counter. -/
lemma vadStep_quiet (s : CaptureState) (w : List ℚ)
    (h : ¬ s.voiceActivityThreshold * s.voiceActivityThreshold < rmsSq w) :
    vadStep s w = { s with consecutiveActiveFrames := 0 } := by
  unfold vadStep
  rw [if_neg h]

/-- The VAD block either keeps the flush count (and the playback flag), or
performs exactly one flush, which requires the agent to have been speaking
and lowers the playback flag. -/
lemma vadStep_flush_or (s : CaptureState) (w : List ℚ) :
    ((vadStep s w).flushes = s.flushes ∧
      (vadStep s w).isPlayingAudio = s.isPlayingAudio) ∨
    (s.isPlayingAudio = true ∧ (vadStep s w).flushes = s.flushes + 1 ∧
      (vadStep s w).isPlayingAudio = false) := by
  by_cases hhigh : s.voiceActivityThreshold * s.voiceActivityThreshold < rmsSq w
  · by_cases hc : s.isPlayingAudio = true ∧
        s.requiredActiveFrames ≤ s.consecutiveActiveFrames + 1
    · right
      rw [vadStep_high_flush s w hhigh hc.1 hc.2]
      exact ⟨hc.1, rfl, rfl⟩
    · left
      rw [vadStep_high_noflush s w hhigh hc]
      exact ⟨rfl, rfl⟩
  · left
    rw [vadStep_quiet s w hhigh]
    exact ⟨rfl, rfl⟩

/-- The capture callback, when the guard fails, returns the state
unchanged. -/
lemma processWindow_not_ready (s : CaptureState) (w : List ℚ)
    (hr : ¬ (s.wsOpen && !s.isMuted && s.conversationReady &&
        s.audioInterfaceReady) = true) :
    processWindow s w = s := by
  unfold processWindow
  rw [if_neg hr]

/-- Every capture window either leaves the flush count unchanged (and the
playback flag as it was), or performs exactly one flush — which requires
the agent to have been speaking and leaves the playback flag false. -/
lemma processWindow_flush_or (s : CaptureState) (w : List ℚ) :
    ((processWindow s w).flushes = s.flushes ∧
      (processWindow s w).isPlayingAudio = s.isPlayingAudio) ∨
    (s.isPlayingAudio = true ∧ (processWindow s w).flushes = s.flushes + 1 ∧
      (processWindow s w).isPlayingAudio = false) := by
  by_cases hr : (s.wsOpen && !s.isMuted && s.conversationReady &&
      s.audioInterfaceReady) = true
  · rw [processWindow_ready_step s w hr]
    rcases vadStep_flush_or s w with ⟨h1, h2⟩ | ⟨hp, h1, h2⟩
    · left
      rw [sendAudioChunk_flushes, sendAudioChunk_isPlayingAudio, h1, h2]
      exact ⟨rfl, rfl⟩
    · right
      exact ⟨hp, by rw [sendAudioChunk_flushes, h1],
        by rw [sendAudioChunk_isPlayingAudio, h2]⟩
  · rw [processWindow_not_ready s w hr]
    left
    exact ⟨rfl, rfl⟩

/-- Once the playback flag is down, later capture windows never flush. -/
lemma run_flushes_of_notPlaying (ws : List (List ℚ)) : ∀ (s : CaptureState),
    s.isPlayingAudio = false →
    (ws.foldl processWindow s).flushes = s.flushes ∧
    (ws.foldl processWindow s).isPlayingAudio = false := by
  induction ws with
  | nil => exact fun s h => ⟨rfl, h⟩
  | cons w rest ih =>
      intro s h
      rcases processWindow_flush_or s w with ⟨h1, h2⟩ | ⟨hp, _, _⟩
      · have := ih (processWindow s w) (h2.trans h)
        exact ⟨this.1.trans h1, this.2⟩
      · rw [h] at hp
        exact absurd hp (by simp)

/-- Any run of capture windows performs at most one flush. -/
lemma run_flushes_le (ws : List (List ℚ)) : ∀ (s : CaptureState),
    (ws.foldl processWindow s).flushes ≤ s.flushes + 1 := by
  induction ws with
  | nil => intro s; simp
  | cons w rest ih =>
      intro s
      rcases processWindow_flush_or s w with ⟨h1, _⟩ | ⟨_, h1, h2⟩
      · calc (rest.foldl processWindow (processWindow s w)).flushes
            ≤ (processWindow s w).flushes + 1 := ih _
          _ = s.flushes + 1 := by rw [h1]
      · have := run_flushes_of_notPlaying rest (processWindow s w) h2
        rw [List.foldl_cons, this.1, h1]

/-- Exactly one flush fires when a ready, playing client with counter `c`
processes `R - c` consecutive loud windows. -/
lemma barge_in_aux (ws : List (List ℚ)) : ∀ (s : CaptureState),
    (s.wsOpen && !s.isMuted && s.conversationReady && s.audioInterfaceReady) = true →
    s.isPlayingAudio = true →
    s.consecutiveActiveFrames + ws.length = s.requiredActiveFrames →
    ws ≠ [] →
    (∀ w ∈ ws, s.voiceActivityThreshold * s.voiceActivityThreshold < rmsSq w) →
    (ws.foldl processWindow s).flushes = s.flushes + 1 ∧
    (ws.foldl processWindow s).audioQueue = [] ∧
    (ws.foldl processWindow s).consecutiveActiveFrames = 0 := by
  induction ws with
  | nil => intro s _ _ _ hne _; exact absurd rfl hne
  | cons w rest ih =>
      intro s hr hplay hcount _ hhigh
      have hw := hhigh w (List.mem_cons_self w rest)
      by_cases hrest : rest = []
      · subst hrest
        have hreach : s.requiredActiveFrames ≤ s.consecutiveActiveFrames + 1 := by
          simp only [List.length_cons, List.length_nil] at hcount
          omega
        simp only [List.foldl_cons, List.foldl_nil]
        rw [processWindow_ready_step s w hr, vadStep_high_flush s w hw hplay hreach]
        exact ⟨by rw [sendAudioChunk_flushes], by rw [sendAudioChunk_audioQueue],
          by rw [sendAudioChunk_consecutiveActiveFrames]⟩

      · have hlen : 0 < rest.length := List.length_pos.mpr hrest
        have hnf : ¬(s.isPlayingAudio = true ∧
            s.requiredActiveFrames ≤ s.consecutiveActiveFrames + 1) := by
          intro hc
          simp only [List.length_cons] at hcount
          omega
        simp only [List.foldl_cons]
        rw [processWindow_ready_step s w hr, vadStep_high_noflush s w hw hnf]
        have h2 := ih (sendAudioChunk
            { s with consecutiveActiveFrames := s.consecutiveActiveFrames + 1 }
            (w.map elevenLabsS16OfFloat))
          (by rw [Bool.and_eq_true, Bool.and_eq_true, Bool.and_eq_true] at hr ⊢
              refine ⟨⟨⟨?_, ?_⟩, ?_⟩, ?_⟩
              · rw [sendAudioChunk_wsOpen]; exact hr.1.1.1
              · rw [sendAudioChunk_isMuted]; exact hr.1.1.2
              · rw [sendAudioChunk_conversationReady]; exact hr.1.2
              · rw [sendAudioChunk_audioInterfaceReady]; exact hr.2)
          (by rw [sendAudioChunk_isPlayingAudio]; exact hplay)
          (by rw [sendAudioChunk_consecutiveActiveFrames,
                sendAudioChunk_requiredActiveFrames]
              simp only [List.length_cons] at hcount
              show s.consecutiveActiveFrames + 1 + rest.length = s.requiredActiveFrames
              omega)
          hrest
          (by intro w' hw'
              rw [sendAudioChunk_voiceActivityThreshold]
              exact hhigh w' (List.mem_cons_of_mem w hw'))
        refine ⟨?_, h2.2.1, h2.2.2⟩
        rw [h2.1, sendAudioChunk_flushes]

/-- C7: a capture window processed while the session is not ready is
dropped silently in both client variants: the ElevenLabs handler skips its
whole body when the transport is not open or the application-level
handshake is incomplete, and the protobuf handler transmits nothing when
the socket handle is absent or not OPEN.  In both cases the state — in
particular the trace of transmitted frames and any queue — is unchanged,
and the handler is a total function (no exception escapes). -/
theorem C7_not_ready_drops_silently :
    (∀ (s : CaptureState) (w : List ℚ),
        s.wsOpen = false ∨ s.conversationReady = false ∨ s.audioInterfaceReady = false →
        processWindow s w = s) ∧
    (∀ (s : ProtoCapture) (w : List ℚ),
        s.ws ≠ Option.some WsReadyState.opened → protoOnAudioProcess s w = s) := by
  constructor
  · intro s w h
    unfold processWindow
    rcases h with h | h | h <;> simp [h]
  · intro s w h
    unfold protoOnAudioProcess
    rcases hws : s.ws with _ | st
    · rfl
    · have hne : st ≠ WsReadyState.opened := by
        intro he
        rw [he] at hws
        exact h hws
      dsimp only
      rw [if_neg hne]

/-- Witness for C7: a not-ready ElevenLabs state and a nulled protobuf
socket both drop a concrete window unchanged. -/
theorem C7_not_ready_drops_silently_witness :
    (notReadyExample.wsOpen = false ∨ notReadyExample.conversationReady = false ∨
      notReadyExample.audioInterfaceReady = false) ∧
    processWindow notReadyExample [1] = notReadyExample ∧
    protoCaptureClosedExample.ws ≠ Option.some WsReadyState.opened ∧
    protoOnAudioProcess protoCaptureClosedExample [1] = protoCaptureClosedExample :=
  ⟨Or.inl rfl,
   C7_not_ready_drops_silently.1 notReadyExample [1] (Or.inl rfl),
   fun h => Option.noConfusion h,
   C7_not_ready_drops_silently.2 protoCaptureClosedExample [1]
     (fun h => Option.noConfusion h)⟩

/-- C8: an inbound frame whose decode fails (protobuf decode throws,
JSON.parse throws, invalid base64) or which lacks the audio payload field
is dropped as a no-op in both clients: the handler state (playback cursor,
scheduled sources, playback queue) is unchanged, the handling function is
total (the source catches the exception), and a trace with such a frame
inserted anywhere processes the remaining frames exactly as the trace
without it. -/
theorem C8_decode_failures_are_noops :
    (∀ (s : ProtoPlayback) (now : ℚ) (m : ProtoDecode), m.isDropped = true →
        enqueueAudioFromProto s now m = s) ∧
    (∀ (q : List (List ℤ)) (m : ELInbound), m.isDropped = true →
        elHandleInbound q m = q) ∧
    (∀ (s : ProtoPlayback) (pre post : List (ℚ × ProtoDecode)) (now : ℚ)
        (m : ProtoDecode), m.isDropped = true →
        protoPlayRun s (pre ++ (now, m) :: post) = protoPlayRun s (pre ++ post)) ∧
    (∀ (q : List (List ℤ)) (pre post : List ELInbound) (m : ELInbound),
        m.isDropped = true →
        (pre ++ m :: post).foldl elHandleInbound q =
          (pre ++ post).foldl elHandleInbound q) := by
  refine ⟨enqueueAudioFromProto_dropped, elHandleInbound_dropped, ?_, ?_⟩
  · intro s pre post now m h
    unfold protoPlayRun
    rw [List.foldl_append, List.foldl_append, List.foldl_cons,
      enqueueAudioFromProto_dropped _ now m h]
  · intro q pre post m h
    rw [List.foldl_append, List.foldl_append, List.foldl_cons,
      elHandleInbound_dropped _ m h]

/-- Witness for C8 on concrete dropped frames and traces. -/
theorem C8_decode_failures_are_noops_witness :
    ProtoDecode.isDropped ProtoDecode.decodeFail = true ∧
    ELInbound.isDropped ELInbound.malformedJSON = true ∧
    enqueueAudioFromProto ⟨0, []⟩ 3 ProtoDecode.decodeFail = ⟨0, []⟩ ∧
    elHandleInbound [[5]] ELInbound.malformedJSON = [[5]] ∧
    protoPlayRun ⟨0, []⟩ ([(1, ProtoDecode.audio [7] 2)] ++ (3, ProtoDecode.missingAudio) :: []) =
      protoPlayRun ⟨0, []⟩ ([(1, ProtoDecode.audio [7] 2)] ++ []) ∧
    ([ELInbound.audioChunk [9]] ++ ELInbound.audioChunkBadB64 :: []).foldl elHandleInbound [] =
      ([ELInbound.audioChunk [9]] ++ []).foldl elHandleInbound [] :=
  ⟨rfl, rfl,
   C8_decode_failures_are_noops.1 ⟨0, []⟩ 3 ProtoDecode.decodeFail rfl,
   C8_decode_failures_are_noops.2.1 [[5]] ELInbound.malformedJSON rfl,
   C8_decode_failures_are_noops.2.2.1 ⟨0, []⟩ [(1, ProtoDecode.audio [7] 2)] [] 3
     ProtoDecode.missingAudio rfl,
   C8_decode_failures_are_noops.2.2.2 [] [ELInbound.audioChunk [9]] []
     ELInbound.audioChunkBadB64 rfl⟩

/-- C9 counterexample: while muted, a loud capture window does NOT update
the voice-activity counter — the whole handler body is guarded by
`!this.isMuted`, so the counter stays at 0, while the identical unmuted
state advances it to 1.  This refutes the claim that RMS is computed and
the ActivityCounter updated exactly as when unmuted. -/
theorem C9_muted_skips_vad :
    (processWindow mutedExample [1]).consecutiveActiveFrames = 0 ∧
    (processWindow readyExample [1]).consecutiveActiveFrames = 1 ∧
    mutedExample = { readyExample with isMuted := true } := by
  refine ⟨rfl, ?_, rfl⟩
  have hw : readyExample.voiceActivityThreshold * readyExample.voiceActivityThreshold <
      rmsSq [(1:ℚ)] := by
    norm_num [readyExample, rmsSq]
  have hnf : ¬(readyExample.isPlayingAudio = true ∧
      readyExample.requiredActiveFrames ≤ readyExample.consecutiveActiveFrames + 1) := by
    decide
  rw [processWindow_ready_step readyExample [1] rfl,
    vadStep_high_noflush readyExample [1] hw hnf,
    sendAudioChunk_consecutiveActiveFrames]
  rfl

/-- C9 (amended): while the client is muted the capture handler skips the
window entirely — no RMS is computed, the ActivityCounter and playback
queue are untouched, and no frame is transmitted (the state is returned
unchanged). -/
theorem C9_muted_drops_window (s : CaptureState) (w : List ℚ)
    (h : s.isMuted = true) : processWindow s w = s := by
  unfold processWindow
  rw [if_neg]
  simp [h]

/-- Witness for C9 (amended) at the concrete muted state. -/
theorem C9_muted_drops_window_witness :
    mutedExample.isMuted = true ∧ processWindow mutedExample [1] = mutedExample :=
  ⟨rfl, C9_muted_drops_window mutedExample [1] rfl⟩

/-- C10: once `stopAudio` has run on the protobuf client, `isPlaying` is
false; no subsequent operation (connect, inbound message, disconnect,
another stopAudio) ever sets it back to true; and every inbound message
arriving after any such sequence — including after a reconnect — leaves
the client state completely unchanged: nothing is decoded, enqueued or
scheduled again. -/
theorem C10_playback_never_resumes :
    (∀ (b : Bool) (s : ProtoClient), (stopAudio b s).isPlaying = false) ∧
    (∀ (s : ProtoClient) (evs : List ProtoEvent), s.isPlaying = false →
        (evs.foldl protoStep s).isPlaying = false) ∧
    (∀ (s : ProtoClient) (evs : List ProtoEvent) (now : ℚ) (m : ProtoDecode),
        s.isPlaying = false →
        protoStep (evs.foldl protoStep s) (ProtoEvent.messageEv now m) =
          evs.foldl protoStep s) := by
  refine ⟨fun b s => rfl, protoRun_preserves_notPlaying, ?_⟩
  intro s evs now m h
  have hfin := protoRun_preserves_notPlaying s evs h
  simp [protoStep, hfin]

/-- Witness for C10: stop, reconnect, then an inbound audio message is a
no-op. -/
theorem C10_playback_never_resumes_witness :
    (stopAudio true protoClientInit).isPlaying = false ∧
    ([ProtoEvent.connectEv].foldl protoStep (stopAudio true protoClientInit)).isPlaying = false ∧
    protoStep ([ProtoEvent.connectEv].foldl protoStep (stopAudio true protoClientInit))
        (ProtoEvent.messageEv 0 (ProtoDecode.audio [7] 2)) =
      [ProtoEvent.connectEv].foldl protoStep (stopAudio true protoClientInit) :=
  ⟨C10_playback_never_resumes.1 true protoClientInit,
   C10_playback_never_resumes.2.1 (stopAudio true protoClientInit) [ProtoEvent.connectEv]
     (C10_playback_never_resumes.1 true protoClientInit),
   C10_playback_never_resumes.2.2 (stopAudio true protoClientInit) [ProtoEvent.connectEv]
     0 (ProtoDecode.audio [7] 2) (C10_playback_never_resumes.1 true protoClientInit)⟩

/-- C6: feeding `requiredActiveFrames` consecutive loud capture windows to
a ready client whose agent audio is playing (counter starting at 0)
triggers exactly one flush — the flush count rises by exactly one, the
playback queue is empty immediately after, and the ActivityCounter is back
at 0 — and over any run of capture windows whatsoever (in particular over
one contiguous loud episode) the flush count rises by at most one. -/
theorem C6_barge_in_flushes_once :
    (∀ (s : CaptureState) (ws : List (List ℚ)),
        (s.wsOpen && !s.isMuted && s.conversationReady && s.audioInterfaceReady) = true →
        s.isPlayingAudio = true →
        s.consecutiveActiveFrames = 0 →
        ws.length = s.requiredActiveFrames →
        0 < s.requiredActiveFrames →
        (∀ w ∈ ws, s.voiceActivityThreshold * s.voiceActivityThreshold < rmsSq w) →
        (ws.foldl processWindow s).flushes = s.flushes + 1 ∧
        (ws.foldl processWindow s).audioQueue = [] ∧
        (ws.foldl processWindow s).consecutiveActiveFrames = 0) ∧
    (∀ (s : CaptureState) (ws : List (List ℚ)),
        (ws.foldl processWindow s).flushes ≤ s.flushes + 1) := by
  constructor
  · intro s ws hr hplay hc hlen hpos hhigh
    apply barge_in_aux ws s hr hplay (by omega) ?_ hhigh
    intro h
    rw [h] at hlen
    simp only [List.length_nil] at hlen
    omega
  · intro s ws
    exact run_flushes_le ws s

/-- Witness for C6: the ready playing example state fed five loud windows
flushes exactly once, emptying the queue and resetting the counter. -/
theorem C6_barge_in_flushes_once_witness :
    (readyExample.wsOpen && !readyExample.isMuted && readyExample.conversationReady &&
        readyExample.audioInterfaceReady) = true ∧
    (((List.replicate 5 [(1:ℚ)]).foldl processWindow readyExample).flushes =
        readyExample.flushes + 1 ∧
      ((List.replicate 5 [(1:ℚ)]).foldl processWindow readyExample).audioQueue = [] ∧
      ((List.replicate 5 [(1:ℚ)]).foldl processWindow readyExample).consecutiveActiveFrames = 0) ∧
    ((List.replicate 2 [(1:ℚ)]).foldl processWindow mutedExample).flushes ≤
      mutedExample.flushes + 1 :=
  ⟨rfl,
   C6_barge_in_flushes_once.1 readyExample (List.replicate 5 [1]) rfl rfl rfl
     (by decide) (by decide)
     (by intro w hw
         rw [List.eq_of_mem_replicate hw]
         norm_num [readyExample, rmsSq]),
   C6_barge_in_flushes_once.2 mutedExample (List.replicate 2 [1])⟩

end VoiceNinja
